import Mathlib

/-!
Verification development for the `governor_mcp` repository.

The Python source is shallowly embedded: pure functions become Lean
functions, the in-place mutation of `Plan`/`PlanStep` dataclasses becomes
explicit state passing (`Plan → Plan`), Python floats become `ℚ` (all
scores and multipliers in the source are small dyadic rationals whose
products are exact in IEEE doubles), Python `datetime.now()` values become
`Nat` timestamps supplied as explicit arguments, and `str | None` fields
become `Option String`.  Environment-generated values (`uuid.uuid4()`
identifiers) are taken as parameters.  Display-only artifacts (the
`factors` dictionary's literal calculation string and Python's numeric
percent formatting) are abstracted where noted in comments.

The pattern library (`classification/patterns.py`) uses `re` with
`re.IGNORECASE` and `search` semantics.  We embed the fragment of Python
regular expressions that those patterns use: literal characters
(case-insensitive), `.`, character classes, `\s`, `\w`, `\d`, `*`/`+` over
single-character matchers, `?`, alternation, `$` and `\b`.
-/

namespace Governor

/-! ## Python string primitives -/

/-- Python's whitespace set for `\s`, `str.split()` and `str.strip()`:
space, tab, newline, carriage return, form feed, vertical tab. -/
def isSpaceChar (c : Char) : Bool :=
  c == ' ' || c == Char.ofNat 9 || c == Char.ofNat 10 ||
  c == Char.ofNat 13 || c == Char.ofNat 12 || c == Char.ofNat 11

/-- Python's `\w`: alphanumerics and underscore (ASCII fragment). -/
def isWordChar (c : Char) : Bool :=
  c.isAlphanum || c == '_'

/-- Python `str.lower()` (ASCII fragment). -/
def lowerStr (s : String) : String :=
  String.mk (s.data.map Char.toLower)

/-- Python `str.strip()`: drop leading and trailing whitespace. -/
def pyStrip (s : String) : String :=
  String.mk (((s.data.dropWhile isSpaceChar).reverse.dropWhile isSpaceChar).reverse)

/-- Whether `pat` is a prefix of `s` (exact characters). -/
def prefixMatch : List Char → List Char → Bool
  | [], _ => true
  | _ :: _, [] => false
  | a :: as, b :: bs => a == b && prefixMatch as bs

/-- Python's `needle in haystack` substring containment over char lists. -/
def containsSub (needle : List Char) : List Char → Bool
  | [] => prefixMatch needle []
  | b :: bs => prefixMatch needle (b :: bs) || containsSub needle bs

/-- Python's `needle in haystack` on strings. -/
def strContains (haystack needle : String) : Bool :=
  containsSub needle.data haystack.data

/-- Python `str.split()`: split on runs of whitespace, dropping empty pieces.
`acc` holds the characters of the current word in reverse. -/
def pySplitAux (acc : List Char) : List Char → List String
  | [] => if acc.isEmpty then [] else [String.mk acc.reverse]
  | c :: rest =>
    if isSpaceChar c then
      if acc.isEmpty then pySplitAux [] rest
      else String.mk acc.reverse :: pySplitAux [] rest
    else pySplitAux (c :: acc) rest

def pySplit (s : String) : List String :=
  pySplitAux [] s.data

/-! ## Regex engine (the fragment used by `patterns.py`)

`CM` is a single-character matcher; `RE` is the pattern syntax.  `*` and
`+` only ever apply to single-character matchers in the source patterns,
which keeps the matcher total by structural recursion. -/

inductive CM : Type where
  | any                     -- `.` (does not match newline)
  | ws                      -- `\s`
  | wd                      -- `\w`
  | digit                   -- `\d`
  | lit (c : Char)          -- literal character, case-insensitive
  | cls (cs : List Char)    -- character class, case-insensitive
  deriving DecidableEq

def cmMatch : CM → Char → Bool
  | .any, c => !(c == Char.ofNat 10)
  | .ws, c => isSpaceChar c
  | .wd, c => isWordChar c
  | .digit, c => c.isDigit
  | .lit l, c => c.toLower == l.toLower
  | .cls cs, c => cs.any (fun l => c.toLower == l.toLower)

inductive RE : Type where
  | eps
  | fail
  | cm (m : CM)
  | star (m : CM)           -- `m*`
  | plus (m : CM)           -- `m+`
  | cat (r1 r2 : RE)
  | alt (r1 r2 : RE)
  | opt (r : RE)            -- `r?`
  | eos                     -- `$`
  | wb                      -- `\b`
  deriving DecidableEq

/-- Anchor `$` matches at end of input or just before a single trailing newline
(Python default, non-MULTILINE). -/
def atEos : List Char → Bool
  | [] => true
  | [c] => c == Char.ofNat 10
  | _ => false

/-- Boundary `\b`: word/non-word boundary between the previous character (`none` at
the start of the input) and the next one. -/
def atBoundary (prev : Option Char) (s : List Char) : Bool :=
  let pw := match prev with | some c => isWordChar c | none => false
  let nw := match s with | c :: _ => isWordChar c | [] => false
  pw != nw

/-- All ways `m*` can consume a prefix; each result is the previous
character and the remaining suffix. -/
def starMatches (m : CM) (prev : Option Char) : List Char → List (Option Char × List Char)
  | [] => [(prev, [])]
  | c :: rest =>
    if cmMatch m c then (prev, c :: rest) :: starMatches m (some c) rest
    else [(prev, c :: rest)]

/-- All ways `m+` can consume a non-empty prefix. -/
def plusMatches (m : CM) (_prev : Option Char) : List Char → List (Option Char × List Char)
  | [] => []
  | c :: rest => if cmMatch m c then starMatches m (some c) rest else []

/-- All ways `r` can match a prefix of `s`; `prev` is the character just
before the current position (needed for `\b`). -/
def matchRE : RE → Option Char → List Char → List (Option Char × List Char)
  | .eps, prev, s => [(prev, s)]
  | .fail, _, _ => []
  | .cm m, _prev, s =>
    match s with
    | [] => []
    | c :: rest => if cmMatch m c then [(some c, rest)] else []
  | .star m, prev, s => starMatches m prev s
  | .plus m, prev, s => plusMatches m prev s
  | .cat r1 r2, prev, s =>
    (matchRE r1 prev s).flatMap (fun st => matchRE r2 st.1 st.2)
  | .alt r1 r2, prev, s => matchRE r1 prev s ++ matchRE r2 prev s
  | .opt r, prev, s => (prev, s) :: matchRE r prev s
  | .eos, prev, s => if atEos s then [(prev, s)] else []
  | .wb, prev, s => if atBoundary prev s then [(prev, s)] else []

/-- Python `re.search`: try a match at every start position. -/
def searchAux (r : RE) (prev : Option Char) : List Char → Bool
  | [] => !(matchRE r prev []).isEmpty
  | c :: rest => !(matchRE r prev (c :: rest)).isEmpty || searchAux r (some c) rest

def reSearch (r : RE) (s : String) : Bool :=
  searchAux r none s.data

/-! ### Pattern construction helpers -/

/-- A sequence of literal characters. -/
def strRE (s : String) : RE :=
  s.data.foldr (fun c r => RE.cat (RE.cm (CM.lit c)) r) RE.eps

def catRE (rs : List RE) : RE :=
  rs.foldr RE.cat RE.eps

/-- Alternation of a non-empty list of branches. -/
def altRE (rs : List RE) : RE :=
  rs.foldr RE.alt RE.fail

/-- Alternation group of literal strings, e.g. `(GET|POST|PUT)`. -/
def altStr (ss : List String) : RE :=
  altRE (ss.map strRE)

def chrRE (c : Char) : RE := RE.cm (CM.lit c)

def optC (c : Char) : RE := RE.opt (chrRE c)

def clsRE (cs : List Char) : RE := RE.cm (CM.cls cs)

/-- Pattern `\s+` -/
def ws1 : RE := RE.plus CM.ws

/-- Pattern `\s*` -/
def ws0 : RE := RE.star CM.ws

/-- Pattern `.*` -/
def anyStar : RE := RE.star CM.any

/-- Pattern `\w+` -/
def wd1 : RE := RE.plus CM.wd

/-- Pattern `\d+` -/
def dig1 : RE := RE.plus CM.digit

/-- The quote character `'`. -/
def quoteChar : Char := Char.ofNat 39

/-- The double-quote character. -/
def dquoteChar : Char := Char.ofNat 34

/-! ## `classification/patterns.py`: the five pattern sets -/

/-- Extension group `(ya?ml|json|toml)`. -/
def extYamlJsonToml : RE :=
  altRE [catRE [chrRE 'y', optC 'a', strRE "ml"], strRE "json", strRE "toml"]

/-- Extension group `(sql|py|rb|js|ts)`. -/
def extCodeFiles : RE := altStr ["sql", "py", "rb", "js", "ts"]

/-- Sensitive file patterns, in source order. -/
def SENSITIVE_FILE_PATTERNS : List RE := [
  -- Environment and config files
  catRE [strRE ".env", RE.alt RE.eos (RE.cat (chrRE '.') anyStar)],
  strRE ".env.local",
  strRE ".env.production",
  catRE [strRE "secret", optC 's', chrRE '.', extYamlJsonToml],
  catRE [strRE "credential", optC 's', chrRE '.', extYamlJsonToml],
  catRE [strRE "config.prod", RE.opt (strRE "uction"), chrRE '.', extYamlJsonToml],
  -- Key files
  catRE [anyStar, strRE ".pem", RE.eos],
  catRE [anyStar, strRE ".key", RE.eos],
  catRE [anyStar, strRE ".p12", RE.eos],
  catRE [anyStar, strRE ".pfx", RE.eos],
  catRE [strRE "id_rsa", anyStar],
  catRE [strRE "id_ed25519", anyStar],
  catRE [anyStar, strRE "_rsa", RE.eos],
  -- AWS and cloud credentials
  strRE ".aws/credentials",
  strRE ".aws/config",
  catRE [strRE "gcloud", anyStar, strRE ".json"],
  catRE [strRE "service", RE.opt (clsRE ['-', '_']), strRE "account", anyStar, strRE ".json"],
  -- Password and token files
  catRE [anyStar, strRE "password", anyStar],
  catRE [anyStar, strRE "token", anyStar, strRE ".txt"],
  strRE ".netrc",
  strRE ".npmrc",
  strRE ".pypirc",
  -- Database config
  catRE [strRE "database.y", optC 'a', strRE "ml"],
  catRE [strRE "db.config.", altStr ["js", "ts", "json"]],
  -- Kubernetes secrets
  catRE [anyStar, strRE "secret", anyStar, strRE ".y", optC 'a', strRE "ml"]
]

/-- Database patterns, in source order. -/
def DATABASE_PATTERNS : List RE := [
  -- SQL files
  catRE [anyStar, strRE ".sql", RE.eos],
  -- Database files
  catRE [anyStar, strRE ".db", RE.eos],
  catRE [anyStar, strRE ".sqlite", optC '3', RE.eos],
  catRE [anyStar, strRE ".mdb", RE.eos],
  -- Database connection strings and operations
  catRE [altStr ["postgres", "postgresql", "mysql", "mongodb", "redis", "sqlite"], strRE "://"],
  catRE [altStr ["DROP", "TRUNCATE", "ALTER"], ws1, altStr ["TABLE", "DATABASE", "SCHEMA"]],
  catRE [strRE "DELETE", ws1, strRE "FROM", ws1, wd1],
  catRE [altStr ["INSERT", "UPDATE"], ws1, strRE "INTO"],
  catRE [strRE "SELECT", ws1, anyStar, ws1, strRE "FROM", ws1, wd1],
  -- Migration files
  catRE [strRE "migration", optC 's', chrRE '/', anyStar, chrRE '.', extCodeFiles],
  catRE [anyStar, strRE "migration", anyStar, chrRE '.', extCodeFiles]
]

/-- External-API patterns, in source order. -/
def API_PATTERNS : List RE := [
  -- HTTP methods
  catRE [altStr ["GET", "POST", "PUT", "DELETE", "PATCH"], ws1, strRE "http", optC 's', strRE "://"],
  catRE [strRE "fetch", ws0, chrRE '(', ws0, clsRE [quoteChar, dquoteChar],
         strRE "http", optC 's', strRE "://"],
  catRE [strRE "axios.", altStr ["get", "post", "put", "delete", "patch"]],
  catRE [strRE "request", optC 's', chrRE '.', altStr ["get", "post", "put", "delete", "patch"]],
  strRE "http.request",
  catRE [strRE "curl", ws1],
  -- API endpoints
  catRE [strRE "/api/v", dig1, chrRE '/'],
  catRE [strRE "api.", anyStar, strRE ".com"],
  strRE "graphql",
  strRE "webhook"
]

/-- System-command patterns, in source order. -/
def SYSTEM_COMMAND_PATTERNS : List RE := [
  -- Destructive commands
  catRE [RE.wb, strRE "rm", ws1, strRE "-r", optC 'f', RE.wb],
  catRE [RE.wb, strRE "rmdir", RE.wb],
  catRE [RE.wb, strRE "del", ws1, chrRE '/', clsRE ['s', 'f', 'q']],
  -- System modification
  catRE [RE.wb, strRE "chmod", RE.wb],
  catRE [RE.wb, strRE "chown", RE.wb],
  catRE [RE.wb, strRE "sudo", RE.wb],
  catRE [RE.wb, strRE "su", ws1, chrRE '-'],
  -- Package management
  catRE [RE.wb, altStr ["apt", "yum", "dnf", "pacman", "brew"], ws1,
         altStr ["install", "remove", "purge"]],
  catRE [RE.wb, strRE "pip", ws1, strRE "install", RE.wb],
  catRE [RE.wb, strRE "npm", ws1, altStr ["install", "uninstall"], ws1, strRE "-g"],
  -- Process control
  catRE [RE.wb, strRE "kill", ws1, chrRE '-', optC '9', RE.wb],
  catRE [RE.wb, strRE "killall", RE.wb],
  catRE [RE.wb, strRE "systemctl", ws1, altStr ["stop", "restart", "disable"]],
  -- Network operations
  catRE [RE.wb, strRE "iptables", RE.wb],
  catRE [RE.wb, strRE "netstat", RE.wb],
  catRE [RE.wb, strRE "ssh", RE.wb, anyStar, chrRE '@']
]

/-- Read-only patterns, in source order. -/
def READ_ONLY_PATTERNS : List RE := [
  catRE [RE.wb, strRE "cat", ws1],
  catRE [RE.wb, strRE "less", ws1],
  catRE [RE.wb, strRE "head", ws1],
  catRE [RE.wb, strRE "tail", ws1],
  catRE [RE.wb, strRE "grep", ws1],
  catRE [RE.wb, strRE "find", ws1],
  catRE [RE.wb, strRE "ls", ws1],
  catRE [RE.wb, strRE "pwd", RE.wb],
  catRE [RE.wb, strRE "whoami", RE.wb],
  catRE [strRE "SELECT", ws1, anyStar, ws1, strRE "FROM"],
  strRE ".read(",
  catRE [strRE "open(", anyStar, chrRE ',', ws0, clsRE [quoteChar, dquoteChar],
         chrRE 'r', clsRE [quoteChar, dquoteChar]]
]

/-- Source `matches_any_pattern`: any pattern in the set matches the text. -/
def matches_any_pattern (text : String) (patterns : List RE) : Bool :=
  patterns.any (fun p => reSearch p text)

/-! ## `classification/resource_classifier.py` -/

inductive ResourceType : Type where
  | memory
  | local_file
  | external_api
  | sensitive_file
  | database
  | system_command
  deriving DecidableEq

/-- Base risk scores for each resource type. -/
def RESOURCE_RISK_SCORES : ResourceType → ℚ
  | .memory => 0
  | .local_file => 1
  | .external_api => 2
  | .sensitive_file => 3
  | .database => 4
  | .system_command => 5

/-- Source `ResourceClassifier._is_file_operation`'s indicator list. -/
def file_indicators : List String := [
  -- File extensions
  ".txt", ".json", ".yaml", ".yml", ".xml", ".csv",
  ".py", ".js", ".ts", ".java", ".go", ".rs", ".rb",
  ".md", ".html", ".css", ".sh", ".bash",
  -- Path indicators
  "/", "\\", "path", "file", "directory", "folder",
  -- File operations
  "read", "write", "save", "load", "open", "create",
  "delete", "remove", "copy", "move", "rename"
]

/-- Source `ResourceClassifier._is_file_operation`. -/
def is_file_operation (text : String) : Bool :=
  let text_lower := lowerStr text
  file_indicators.any (fun indicator => strContains text_lower indicator)

/-- Source `ResourceClassifier.classify`: first match in descending risk
order wins. -/
def classify (operation : String) (context : String) : ResourceType × ℚ :=
  let combined := pyStrip (operation ++ " " ++ context)
  if matches_any_pattern combined SYSTEM_COMMAND_PATTERNS then
    (.system_command, RESOURCE_RISK_SCORES .system_command)
  else if matches_any_pattern combined DATABASE_PATTERNS then
    (.database, RESOURCE_RISK_SCORES .database)
  else if matches_any_pattern combined SENSITIVE_FILE_PATTERNS then
    (.sensitive_file, RESOURCE_RISK_SCORES .sensitive_file)
  else if matches_any_pattern combined API_PATTERNS then
    (.external_api, RESOURCE_RISK_SCORES .external_api)
  else if is_file_operation combined then
    (.local_file, RESOURCE_RISK_SCORES .local_file)
  else
    (.memory, RESOURCE_RISK_SCORES .memory)

/-! ## `classification/action_classifier.py` -/

inductive ActionType : Type where
  | read
  | write
  | delete
  | execute
  deriving DecidableEq

inductive ScopeType : Type where
  | single
  | multiple
  | collection
  | system
  deriving DecidableEq

/-- Risk multipliers for actions. -/
def ACTION_MULTIPLIERS : ActionType → ℚ
  | .read => 1/2
  | .write => 3/2
  | .delete => 5/2
  | .execute => 3

/-- Risk multipliers for scope. -/
def SCOPE_MULTIPLIERS : ScopeType → ℚ
  | .single => 1
  | .multiple => 3/2
  | .collection => 2
  | .system => 3

def READ_KEYWORDS : List String := [
  "read", "get", "fetch", "retrieve", "view", "show", "display",
  "list", "find", "search", "query", "select", "look", "check",
  "inspect", "examine", "browse", "scan", "cat", "head", "tail",
  "grep", "ls", "dir", "print", "echo", "describe", "status"
]

def WRITE_KEYWORDS : List String := [
  "write", "create", "add", "insert", "update", "modify", "change",
  "edit", "set", "put", "post", "patch", "save", "store", "upload",
  "append", "replace", "overwrite", "touch", "mkdir", "install",
  "configure", "enable", "init", "generate", "build", "compile"
]

def DELETE_KEYWORDS : List String := [
  "delete", "remove", "drop", "truncate", "clear", "purge", "clean",
  "uninstall", "destroy", "erase", "wipe", "rm", "rmdir", "del",
  "unlink", "reset", "revoke", "disable", "expire", "invalidate"
]

def EXECUTE_KEYWORDS : List String := [
  "execute", "run", "start", "launch", "invoke", "call", "trigger",
  "deploy", "apply", "migrate", "push", "publish", "release", "ship",
  "sudo", "exec", "spawn", "fork", "eval", "script", "command",
  "restart", "reboot", "shutdown", "kill", "stop", "terminate"
]

def SINGLE_KEYWORDS : List String := [
  "a", "an", "one", "single", "this", "that", "the", "specific"
]

def MULTIPLE_KEYWORDS : List String := [
  "multiple", "several", "some", "few", "many", "these", "those",
  "batch", "group", "set", "list", "array"
]

def COLLECTION_KEYWORDS : List String := [
  "all", "every", "each", "entire", "whole", "complete", "full",
  "collection", "table", "directory", "folder", "repository",
  "database", "schema", "namespace", "bucket", "queue"
]

def SYSTEM_KEYWORDS : List String := [
  "system", "global", "server", "cluster", "infrastructure",
  "environment", "production", "staging", "network", "service",
  "platform", "organization", "account", "root", "admin"
]

/-- Python `any(kw in text for kw in kws)`. -/
def containsAnyKw (text : String) (kws : List String) : Bool :=
  kws.any (fun kw => strContains text kw)

/-- Source `ActionClassifier.classify_action`: read-only patterns
short-circuit, then keyword sets in descending severity, default WRITE. -/
def classify_action (operation : String) : ActionType × ℚ :=
  let operation_lower := lowerStr operation
  if matches_any_pattern operation READ_ONLY_PATTERNS then
    (.read, ACTION_MULTIPLIERS .read)
  else if containsAnyKw operation_lower EXECUTE_KEYWORDS then
    (.execute, ACTION_MULTIPLIERS .execute)
  else if containsAnyKw operation_lower DELETE_KEYWORDS then
    (.delete, ACTION_MULTIPLIERS .delete)
  else if containsAnyKw operation_lower WRITE_KEYWORDS then
    (.write, ACTION_MULTIPLIERS .write)
  else if containsAnyKw operation_lower READ_KEYWORDS then
    (.read, ACTION_MULTIPLIERS .read)
  else
    (.write, ACTION_MULTIPLIERS .write)

/-- Source `ActionClassifier.classify_scope`: scope keyword sets in
descending severity, default SINGLE. -/
def classify_scope (operation : String) (context : String) : ScopeType × ℚ :=
  let combined := lowerStr (operation ++ " " ++ context)
  if containsAnyKw combined SYSTEM_KEYWORDS then
    (.system, SCOPE_MULTIPLIERS .system)
  else if containsAnyKw combined COLLECTION_KEYWORDS then
    (.collection, SCOPE_MULTIPLIERS .collection)
  else if containsAnyKw combined MULTIPLE_KEYWORDS then
    (.multiple, SCOPE_MULTIPLIERS .multiple)
  else
    (.single, SCOPE_MULTIPLIERS .single)

/-! ## `core/risk_assessment.py` -/

inductive RiskLevel : Type where
  | low
  | medium
  | high
  deriving DecidableEq

def LOW_THRESHOLD : ℚ := 3
def MEDIUM_THRESHOLD : ℚ := 8

/-- Source `RiskAssessor._calculate_risk_level`. -/
def calculate_risk_level (score : ℚ) : RiskLevel :=
  if score < LOW_THRESHOLD then .low
  else if score ≤ MEDIUM_THRESHOLD then .medium
  else .high

/-- Source `RiskAssessor._generate_description`. -/
def generate_description (operation : String) (action_type : ActionType) : String :=
  let verb := match action_type with
    | .read => "Reading"
    | .write => "Writing/modifying"
    | .delete => "Deleting"
    | .execute => "Executing"
  verb ++ ": " ++ operation.take 100 ++ (if operation.length > 100 then "..." else "")

/-- Source `RiskAssessor._generate_recommendations`. -/
def generate_recommendations (risk_level : RiskLevel) (resource_type : ResourceType)
    (action_type : ActionType) (scope_type : ScopeType) : List String :=
  if risk_level = .low then
    ["Operation can proceed without additional approval"]
  else
    (if risk_level = .medium then
      ["User confirmation required before proceeding"]
      ++ (if resource_type = .external_api then
            ["Verify API endpoint and credentials are correct"] else [])
      ++ (if action_type = .write then
            ["Consider creating a backup before modification"] else [])
    else []) ++
    (if risk_level = .high then
      ["Create a structured execution plan with step-by-step approval",
       "Document rollback procedures for each step"]
      ++ (if resource_type = .database then
            ["Ensure database backup exists before proceeding",
             "Consider running in a transaction with rollback capability"] else [])
      ++ (if resource_type = .sensitive_file then
            ["Verify credential handling follows security best practices",
             "Ensure sensitive data is not logged or exposed"] else [])
      ++ (if resource_type = .system_command then
            ["Review command for unintended side effects",
             "Consider running in isolated/sandboxed environment first"] else [])
      ++ (if action_type = .delete then
            ["Confirm deletion targets are correct",
             "Verify backup exists before deletion"] else [])
      ++ (if scope_type = .system then
            ["Assess impact on dependent systems",
             "Consider staged rollout if possible"] else [])
    else [])

/-- Embedding of the `Assessment` dataclass.  The enum-valued string fields
hold the corresponding enum; the `factors` dictionary is display-only
(category names, weights and a formatted calculation string already present
in the other fields) and is omitted. -/
structure Assessment where
  id : String
  operation : String
  description : String
  resource_type : ResourceType
  action_type : ActionType
  scope : ScopeType
  risk_score : ℚ
  risk_level : RiskLevel
  recommendations : List String
  timestamp : Nat
  deriving DecidableEq

/-- Source `RiskAssessor.assess`.  The generated `uuid.uuid4()` identifier
and `datetime.now()` timestamp are taken as the parameters `id` and `t`. -/
def assess (operation description context : String) (id : String) (t : Nat) : Assessment :=
  let rc := classify operation context
  let ac := classify_action operation
  let sc := classify_scope operation context
  let risk_score := rc.2 * ac.2 * sc.2
  let risk_level := calculate_risk_level risk_score
  { id := id
    operation := operation
    -- Python `description or self._generate_description(...)`: empty string is falsy
    description := if description = "" then generate_description operation ac.1 else description
    resource_type := rc.1
    action_type := ac.1
    scope := sc.1
    risk_score := risk_score
    risk_level := risk_level
    recommendations := generate_recommendations risk_level rc.1 ac.1 sc.1
    timestamp := t }

/-! ## Claims C1, C2, C7, C8 -/

/-- Helper: the fixed thresholds of `_calculate_risk_level`, as three iffs. -/
theorem calculate_risk_level_iff (s : ℚ) :
    (calculate_risk_level s = .low ↔ s < 3)
    ∧ (calculate_risk_level s = .medium ↔ 3 ≤ s ∧ s ≤ 8)
    ∧ (calculate_risk_level s = .high ↔ 8 < s) := by
  unfold calculate_risk_level LOW_THRESHOLD MEDIUM_THRESHOLD
  split_ifs with h1 h2 <;> refine ⟨?_, ?_, ?_⟩ <;> simp_all <;> linarith

/-- C1: For every operation, description, and context string, the
Assessment returned by `RiskAssessor.assess` has `risk_score` equal to the
resource base score times the action multiplier times the scope multiplier
(as produced by the three classifiers on that input), and its `risk_level`
is LOW iff `risk_score < 3`, MEDIUM iff `3 ≤ risk_score ≤ 8`, and HIGH iff
`risk_score > 8`. -/
theorem assess_score_is_product_and_level_thresholds
    (operation description context id : String) (t : Nat) :
    (assess operation description context id t).risk_score =
      (classify operation context).2 * (classify_action operation).2
        * (classify_scope operation context).2
    ∧ ((assess operation description context id t).risk_level = .low ↔
        (assess operation description context id t).risk_score < 3)
    ∧ ((assess operation description context id t).risk_level = .medium ↔
        3 ≤ (assess operation description context id t).risk_score
          ∧ (assess operation description context id t).risk_score ≤ 8)
    ∧ ((assess operation description context id t).risk_level = .high ↔
        8 < (assess operation description context id t).risk_score) := by
  have hl : (assess operation description context id t).risk_level =
      calculate_risk_level ((assess operation description context id t).risk_score) := rfl
  refine ⟨rfl, ?_, ?_, ?_⟩ <;> rw [hl]
  · exact (calculate_risk_level_iff _).1
  · exact (calculate_risk_level_iff _).2.1
  · exact (calculate_risk_level_iff _).2.2

set_option maxRecDepth 4000000

set_option maxHeartbeats 4000000

/-- C2 counterexample: on "delete all records from user_sessions table"
with empty context the resource classifier does NOT return DATABASE — the
text matches no database pattern (`DELETE\s+FROM` needs the two words to be
adjacent) — and the assessment's score is not 20.0 nor its level HIGH. -/
theorem classify_delete_all_records_not_database :
    classify "delete all records from user_sessions table" "" ≠ (.database, 4)
    ∧ (assess "delete all records from user_sessions table" "" "" "a1" 0).risk_score ≠ 20
    ∧ (assess "delete all records from user_sessions table" "" "" "a1" 0).risk_level
        ≠ .high := by
  refine ⟨by decide, by with_unfolding_all decide, by with_unfolding_all decide⟩

/-- C2 amended: for the input operation "delete all records from
user_sessions table" with empty context, `assess` classifies the resource
as LOCAL_FILE with base score 1 (the text contains the file-operation
indicator "delete" but matches no database pattern), the action as DELETE
with multiplier 2.5, and the scope as COLLECTION with multiplier 2.0,
yielding `risk_score` 5.0 and `risk_level` MEDIUM. -/
theorem assess_delete_all_records_local_file_medium :
    classify "delete all records from user_sessions table" "" = (.local_file, 1)
    ∧ classify_action "delete all records from user_sessions table" = (.delete, 5/2)
    ∧ classify_scope "delete all records from user_sessions table" "" = (.collection, 2)
    ∧ (assess "delete all records from user_sessions table" "" "" "a1" 0).risk_score = 5
    ∧ (assess "delete all records from user_sessions table" "" "" "a1" 0).risk_level
        = .medium := by
  refine ⟨by decide, by with_unfolding_all decide, by decide,
    by with_unfolding_all decide, by with_unfolding_all decide⟩

/-- C7: whenever the combined operation+context text matches at least one
system-command pattern, `classify` returns SYSTEM_COMMAND with base score
5 — the first branch wins unconditionally, whatever else the text matches,
and a single resource type is returned. -/
theorem classify_system_command_first
    (operation context : String)
    (h : matches_any_pattern (pyStrip (operation ++ " " ++ context))
          SYSTEM_COMMAND_PATTERNS = true) :
    classify operation context = (.system_command, 5) := by
  unfold classify
  simp only [h, if_true]
  rfl

/-- C7 witness: "sudo DROP TABLE users" matches a system-command pattern
(and simultaneously a database pattern), and classifies as SYSTEM_COMMAND
with score 5. -/
theorem classify_system_command_first_witness :
    matches_any_pattern (pyStrip ("sudo DROP TABLE users" ++ " " ++ ""))
        SYSTEM_COMMAND_PATTERNS = true
    ∧ matches_any_pattern (pyStrip ("sudo DROP TABLE users" ++ " " ++ ""))
        DATABASE_PATTERNS = true
    ∧ classify "sudo DROP TABLE users" "" = (.system_command, 5) :=
  ⟨by decide, by decide,
   classify_system_command_first "sudo DROP TABLE users" "" (by decide)⟩

/-- C8: an operation matching a read-only pattern is classified READ with
multiplier 0.5 immediately, before any keyword set is consulted. -/
theorem classify_action_read_only_short_circuit
    (operation : String)
    (h : matches_any_pattern operation READ_ONLY_PATTERNS = true) :
    classify_action operation = (.read, 1/2) := by
  unfold classify_action
  simp only [h, if_true]
  rfl

/-- C8 witness: "cat config.yaml" matches a read-only pattern and is
classified READ with multiplier 0.5, despite containing file-like words. -/
theorem classify_action_read_only_short_circuit_witness :
    matches_any_pattern "cat config.yaml" READ_ONLY_PATTERNS = true
    ∧ classify_action "cat config.yaml" = (.read, 1/2) :=
  ⟨by decide, classify_action_read_only_short_circuit "cat config.yaml" (by decide)⟩

/-! ## `state/models.py` -/

inductive StepStatus : Type where
  | pending
  | approved
  | denied
  | executing
  | completed
  | failed
  | skipped
  deriving DecidableEq

inductive PlanStatus : Type where
  | draft
  | awaiting_approval
  | in_progress
  | completed
  | aborted
  | failed
  deriving DecidableEq

/-- Embedding of the `PlanStep` dataclass (timestamps as `Nat`). -/
structure PlanStep where
  id : String
  order : Nat
  description : String
  operation : String
  expected_outcome : String
  rollback_action : Option String
  status : StepStatus
  result : Option String
  error : Option String
  executed_at : Option Nat
  deriving DecidableEq

/-- Embedding of the `Plan` dataclass. -/
structure Plan where
  id : String
  name : String
  description : String
  assessment_id : String
  steps : List PlanStep
  status : PlanStatus
  current_step_index : Nat
  created_at : Nat
  updated_at : Nat
  completed_at : Option Nat
  deriving DecidableEq

/-- Embedding of the `Approval` dataclass. -/
structure Approval where
  id : String
  target_type : String
  target_id : String
  approved : Bool
  reason : Option String
  conditions : List String
  approved_by : String
  timestamp : Nat
  deriving DecidableEq

/-! ## `core/deviation_detector.py` -/

/-- One entry of the detector's `deviations` list.  The source builds small
dictionaries of two shapes (operation deviation / outcome deviation); the
union of their keys becomes optional fields, `kind` holding the "type"
key. -/
structure Deviation where
  kind : String
  deviation_type : String
  planned : Option String
  expected : Option String
  actual : String
  similarity : Option ℚ
  message : String
  deriving DecidableEq

/-- Embedding of the `DeviationReport` dataclass. -/
structure DeviationReport where
  step_id : String
  has_deviation : Bool
  severity : String
  deviations : List Deviation
  recommendations : List String
  deriving DecidableEq

/-- Source `DeviationDetector._normalize`: lowercase, collapse whitespace. -/
def normalize (text : String) : String :=
  String.intercalate " " (pySplit (lowerStr text))

/-- Source `DeviationDetector._calculate_similarity`: token-set Jaccard
similarity over whitespace-split words. -/
def calculate_similarity (text1 text2 : String) : ℚ :=
  let words1 := (pySplit text1).dedup
  let words2 := (pySplit text2).dedup
  if words1.isEmpty && words2.isEmpty then 1
  else if words1.isEmpty || words2.isEmpty then 0
  else
    let intersection := words1.filter (fun w => words2.contains w)
    let union := (words1 ++ words2).dedup
    (intersection.length : ℚ) / (union.length : ℚ)

/-- Stand-in for Python's percent formatting `f"{x:.1%}"`: produces some
textual rendering of the number (the embedded logic never inspects it). -/
def pctFmt (q : ℚ) : String :=
  toString q.num ++ "/" ++ toString q.den

/-- Source `DeviationDetector._check_operation_deviation`. -/
def check_operation_deviation (planned actual : String) : Option Deviation :=
  if planned = "" ∨ actual = "" then none
  else
    let planned_normalized := normalize planned
    let actual_normalized := normalize actual
    if planned_normalized = actual_normalized then none
    else
      let similarity := calculate_similarity planned_normalized actual_normalized
      if similarity ≥ 9/10 then none
      else
        some { kind := "operation_deviation"
               deviation_type := if similarity ≥ 7/10 then "minor" else "major"
               planned := some planned
               expected := none
               actual := actual
               similarity := some similarity
               message := "Operation differs from plan (similarity: "
                 ++ pctFmt similarity ++ ")" }

def error_indicators : List String := [
  "error", "failed", "exception", "traceback",
  "denied", "forbidden", "unauthorized", "timeout",
  "not found", "does not exist", "cannot", "unable"
]

def success_indicators : List String := [
  "success", "completed", "done", "created",
  "updated", "deleted", "ok", "passed"
]

/-- Source `DeviationDetector._check_outcome_deviation`. -/
def check_outcome_deviation (expected actual : String) : Option Deviation :=
  if expected = "" ∨ actual = "" then none
  else
    let expected_lower := lowerStr expected
    let actual_lower := lowerStr actual
    let has_error := containsAnyKw actual_lower error_indicators
    if has_error then
      some { kind := "outcome_deviation"
             deviation_type := "critical"
             planned := none
             expected := some expected
             actual := actual
             similarity := none
             message := "Execution resulted in error or failure" }
    else
      let expected_success := containsAnyKw expected_lower success_indicators
      let actual_success := containsAnyKw actual_lower success_indicators
      if expected_success && !actual_success then
        some { kind := "outcome_deviation"
               deviation_type := "major"
               planned := none
               expected := some expected
               actual := actual
               similarity := none
               message := "Expected success but outcome is unclear" }
      else none

def severity_order : List String := ["minor", "major", "critical"]

/-- Source `severity_order.index(s)`; the source only applies it to values
present in the list. -/
def sevIndex (s : String) : Nat := severity_order.indexOf s

/-- Source `DeviationDetector._calculate_severity`. -/
def calculate_severity (deviations : List Deviation) : String :=
  if deviations.isEmpty then "none"
  else
    deviations.foldl
      (fun max_severity d =>
        if sevIndex d.deviation_type > sevIndex max_severity then d.deviation_type
        else max_severity)
      "minor"

/-- Source `DeviationDetector._generate_recommendations`. -/
def detector_recommendations (deviations : List Deviation) (severity : String) :
    List String :=
  if severity = "none" then ["Execution proceeded as planned"]
  else
    (if severity = "critical" then
      ["STOP: Critical deviation detected",
       "Review error output and assess impact",
       "Consider rolling back completed steps"] else []) ++
    (if severity = "major" then
      ["CAUTION: Significant deviation from plan",
       "Verify actual outcome before proceeding",
       "Consider updating plan if deviation is acceptable"] else []) ++
    (if severity = "minor" then
      ["NOTE: Minor deviation detected",
       "Review changes and confirm acceptability"] else []) ++
    deviations.filterMap (fun d =>
      if d.kind = "operation_deviation" then
        some ("Operation similarity: " ++ pctFmt (d.similarity.getD 0))
      else none)

/-- Source `DeviationDetector.detect`. -/
def detect (step : PlanStep) (actual_operation actual_outcome : String) :
    DeviationReport :=
  let opDev := check_operation_deviation step.operation actual_operation
  let outDev := check_outcome_deviation step.expected_outcome actual_outcome
  let deviations := (match opDev with | some d => [d] | none => []) ++
                    (match outDev with | some d => [d] | none => [])
  let severity := calculate_severity deviations
  { step_id := step.id
    has_deviation := deviations.length > 0
    severity := severity
    deviations := deviations
    recommendations := detector_recommendations deviations severity }

/-! ## Claim C3 -/

/-- Helper: an operation-deviation finding always carries deviation type
"minor" or "major". -/
theorem check_operation_deviation_type {planned actual : String} {d : Deviation}
    (h : check_operation_deviation planned actual = some d) :
    d.deviation_type = "minor" ∨ d.deviation_type = "major" := by
  unfold check_operation_deviation at h
  by_cases h1 : planned = "" ∨ actual = ""
  · rw [if_pos h1] at h
    exact absurd h (by simp)
  rw [if_neg h1] at h
  by_cases h2 : normalize planned = normalize actual
  · rw [if_pos h2] at h
    exact absurd h (by simp)
  rw [if_neg h2] at h
  by_cases h3 : calculate_similarity (normalize planned) (normalize actual) ≥ 9/10
  · rw [if_pos h3] at h
    exact absurd h (by simp)
  rw [if_neg h3] at h
  injection h with h
  subst h
  by_cases h4 : calculate_similarity (normalize planned) (normalize actual) ≥ 7/10
  · left
    simp [h4]
  · right
    simp [h4]

/-- C3 counterexample: a step with empty `expected_outcome` whose actual
outcome is literally "error" yields severity "none" — `_check_outcome_deviation`
returns no finding when the expected-outcome text is empty, so the
error-indicator check never fires. -/
theorem detect_error_not_always_critical :
    containsAnyKw (lowerStr "error") error_indicators = true
    ∧ (detect { id := "s1", order := 1, description := "d", operation := "x",
                expected_outcome := "", rollback_action := none, status := .pending,
                result := none, error := none, executed_at := none }
        "x" "error").severity = "none" :=
  ⟨by decide, by decide⟩

/-- C3 amended: for every PlanStep whose `expected_outcome` text is
non-empty and every actual-operation text, if the actual-outcome text
contains (case-insensitive substring) any error-indicator keyword, then
`detect` returns a report with severity "critical", regardless of the
operation similarity. -/
theorem detect_error_outcome_critical
    (step : PlanStep) (actual_operation actual_outcome : String)
    (hexp : step.expected_outcome ≠ "")
    (herr : containsAnyKw (lowerStr actual_outcome) error_indicators = true) :
    (detect step actual_operation actual_outcome).severity = "critical" := by
  have hne : actual_outcome ≠ "" := by
    intro h
    subst h
    exact absurd herr (by decide)
  have hout : check_outcome_deviation step.expected_outcome actual_outcome =
      some { kind := "outcome_deviation", deviation_type := "critical",
             planned := none, expected := some step.expected_outcome,
             actual := actual_outcome, similarity := none,
             message := "Execution resulted in error or failure" } := by
    unfold check_outcome_deviation
    rw [if_neg (not_or.mpr ⟨hexp, hne⟩)]
    simp only [herr, if_true]
  unfold detect
  rw [hout]
  cases hop : check_operation_deviation step.operation actual_operation with
  | none => rfl
  | some d =>
    rcases check_operation_deviation_type hop with hd | hd <;>
      simp [calculate_severity, sevIndex, severity_order, hd]

/-- C3 witness: a step expecting "listing printed" whose actual outcome is
"error: failed" produces a critical report. -/
theorem detect_error_outcome_critical_witness :
    ("listing printed" : String) ≠ ""
    ∧ containsAnyKw (lowerStr "error: failed") error_indicators = true
    ∧ (detect { id := "s1", order := 1, description := "list files", operation := "ls",
                expected_outcome := "listing printed", rollback_action := none,
                status := .executing, result := none, error := none, executed_at := none }
        "ls" "error: failed").severity = "critical" :=
  ⟨by decide, by decide,
   detect_error_outcome_critical _ "ls" "error: failed" (by decide) (by decide)⟩

/-! ## `core/plan_controller.py` and `state/session.py`

Each controller method looks its plan up in the session store, mutates it
in place, and (for approvals) appends an immutable `Approval` record.  We
embed the mutation of the found plan as a function `Plan → Plan`;
`datetime.now()` values and generated uuids are parameters.  The not-found
branches (returning `None`) perform no mutation and are outside these
functions' domain. -/

/-- Source step-definition dictionaries passed to `create_plan`
(`step_def.get(key, default)`). -/
structure StepDef where
  description : Option String
  operation : Option String
  expected_outcome : Option String
  rollback_action : Option String
  deriving DecidableEq

/-- One iteration of `create_plan`'s step-building loop (`i` is the
0-based enumeration index, `sid` the generated uuid). -/
def mkPlanStep (i : Nat) (sd : StepDef) (sid : String) : PlanStep :=
  { id := sid
    order := i + 1
    description := sd.description.getD ("Step " ++ toString (i + 1))
    operation := sd.operation.getD ""
    expected_outcome := sd.expected_outcome.getD ""
    rollback_action := sd.rollback_action
    status := .pending
    result := none
    error := none
    executed_at := none }

def buildSteps (i : Nat) : List StepDef → List String → List PlanStep
  | sd :: sds, sid :: sids => mkPlanStep i sd sid :: buildSteps (i + 1) sds sids
  | _, _ => []

/-- Source `PlanController.create_plan`. -/
def create_plan (plan_id name description assessment_id : String)
    (stepDefs : List StepDef) (step_ids : List String) (t : Nat) : Plan :=
  { id := plan_id
    name := name
    description := description
    assessment_id := assessment_id
    steps := buildSteps 0 stepDefs step_ids
    status := .draft
    current_step_index := 0
    created_at := t
    updated_at := t
    completed_at := none }

/-- Source `PlanController.submit_for_approval` (the `ValueError` raised on
a non-draft plan becomes `Except.error`; no mutation happens then). -/
def submit_for_approval (plan : Plan) (t : Nat) : Except String Plan :=
  if plan.status ≠ .draft then
    .error "Plan must be in DRAFT status to submit"
  else
    .ok { plan with status := .awaiting_approval, updated_at := t }

/-- Source `PlanController.approve_plan`: records a positive Approval,
moves the plan to IN_PROGRESS and marks every step approved — with no
precondition on the current plan status. -/
def approve_plan (plan : Plan) (reason : Option String) (approval_id : String)
    (t : Nat) : Plan × Approval :=
  ({ plan with
      status := .in_progress
      updated_at := t
      steps := plan.steps.map (fun s => { s with status := StepStatus.approved }) },
   { id := approval_id, target_type := "plan", target_id := plan.id,
     approved := true, reason := reason, conditions := [], approved_by := "user",
     timestamp := t })

/-- Source `PlanController.deny_plan`. -/
def deny_plan (plan : Plan) (reason : Option String) (approval_id : String)
    (t : Nat) : Plan × Approval :=
  ({ plan with status := .aborted, updated_at := t, completed_at := some t },
   { id := approval_id, target_type := "plan", target_id := plan.id,
     approved := false, reason := reason, conditions := [], approved_by := "user",
     timestamp := t })

/-- Status-only update of the first step whose id matches, as done inline
by `approve_step`/`deny_step`; returns whether a step was found. -/
def set_step_status (step_id : String) (status : StepStatus) :
    List PlanStep → List PlanStep × Bool
  | [] => ([], false)
  | s :: rest =>
    if s.id = step_id then ({ s with status := status } :: rest, true)
    else
      let r := set_step_status step_id status rest
      (s :: r.1, r.2)

/-- Source `PlanController.approve_step` (found case mutates; not-found
returns the plan unchanged with no approval). -/
def approve_step (plan : Plan) (step_id : String) (reason : Option String)
    (approval_id : String) (t : Nat) : Plan × Option Approval :=
  let r := set_step_status step_id .approved plan.steps
  if r.2 then
    ({ plan with steps := r.1, updated_at := t },
     some { id := approval_id, target_type := "step", target_id := step_id,
            approved := true, reason := reason, conditions := [],
            approved_by := "user", timestamp := t })
  else (plan, none)

/-- Source `PlanController.deny_step`. -/
def deny_step (plan : Plan) (step_id : String) (reason : Option String)
    (approval_id : String) (t : Nat) : Plan × Option Approval :=
  let r := set_step_status step_id .denied plan.steps
  if r.2 then
    ({ plan with steps := r.1, updated_at := t },
     some { id := approval_id, target_type := "step", target_id := step_id,
            approved := false, reason := reason, conditions := [],
            approved_by := "user", timestamp := t })
  else (plan, none)

/-- Source `SessionManager.update_step_status`'s per-step mutation, applied
to the first step whose id matches; `executed_at` is stamped for COMPLETED
and FAILED. -/
def update_first_step (step_id : String) (status : StepStatus)
    (result error : Option String) (t : Nat) : List PlanStep → List PlanStep × Bool
  | [] => ([], false)
  | s :: rest =>
    if s.id = step_id then
      ({ s with
          status := status
          result := result
          error := error
          executed_at := if status = .completed ∨ status = .failed then some t
                         else s.executed_at } :: rest, true)
    else
      let r := update_first_step step_id status result error t rest
      (s :: r.1, r.2)

/-- Source `SessionManager.update_step_status` on the stored plan. -/
def update_step_status (plan : Plan) (step_id : String) (status : StepStatus)
    (result error : Option String) (t : Nat) : Plan × Bool :=
  let r := update_first_step step_id status result error t plan.steps
  (if r.2 then { plan with steps := r.1, updated_at := t } else plan, r.2)

/-- Source `PlanController.start_step_execution`. -/
def start_step_execution (plan : Plan) (step_id : String) (t : Nat) : Plan :=
  (update_step_status plan step_id .executing none none t).1

/-- Source `PlanController.complete_step`: completes the step, then
finishes the plan iff every step is COMPLETED or SKIPPED. -/
def complete_step (plan : Plan) (step_id : String) (result : String) (t : Nat) : Plan :=
  let r := update_step_status plan step_id .completed (some result) none t
  if r.2 then
    if r.1.steps.all (fun s => s.status == .completed || s.status == .skipped) then
      { r.1 with status := .completed, completed_at := some t }
    else r.1
  else r.1

/-- Source `PlanController.fail_step`: fails the step and unconditionally
fails the whole plan (without touching `completed_at`). -/
def fail_step (plan : Plan) (step_id : String) (error : String) (t : Nat) : Plan :=
  let r := update_step_status plan step_id .failed none (some error) t
  if r.2 then { r.1 with status := .failed, updated_at := t } else r.1

/-- One rollback-suggestion dictionary built by `abort_plan`. -/
structure RollbackSuggestion where
  step_id : String
  step_order : Nat
  step_description : String
  rollback_action : Option String
  deriving DecidableEq

/-- The dictionary returned by `abort_plan`. -/
structure AbortInfo where
  plan_id : String
  reason : Option String
  rollback_suggestions : List RollbackSuggestion
  completed_steps : Nat
  skipped_steps : Nat
  deriving DecidableEq

/-- Python truthiness of `str | None`: `None` and the empty string are
falsy. -/
def truthyOpt : Option String → Bool
  | none => false
  | some s => s != ""

/-- Source `PlanController.abort_plan`: collect rollback suggestions from
completed steps with a truthy rollback action (in step order), skip the
still pending/approved steps, abort the plan, and return the reversed
suggestions plus counts over the mutated steps. -/
def abort_plan (plan : Plan) (reason : Option String) (t : Nat) : Plan × AbortInfo :=
  let rollback_suggestions :=
    (plan.steps.filter (fun s => s.status == .completed && truthyOpt s.rollback_action)).map
      (fun s => ({ step_id := s.id, step_order := s.order,
                   step_description := s.description,
                   rollback_action := s.rollback_action } : RollbackSuggestion))
  let steps' := plan.steps.map (fun s =>
    if s.status == .pending || s.status == .approved then
      { s with status := StepStatus.skipped }
    else s)
  ({ plan with
      steps := steps'
      status := .aborted
      updated_at := t
      completed_at := some t },
   { plan_id := plan.id
     reason := reason
     rollback_suggestions := rollback_suggestions.reverse
     completed_steps := steps'.countP (fun s => s.status == .completed)
     skipped_steps := steps'.countP (fun s => s.status == .skipped) })

/-! ## Claims C5, C6, C10 -/

/-- C10: `approve_plan` checks no precondition on the plan's current
status: for every stored plan — whatever its status, including the
terminal ones — it returns a positive plan-scoped Approval, sets the plan
status to IN_PROGRESS, and overwrites every step's status to APPROVED. -/
theorem approve_plan_no_precondition (plan : Plan) (reason : Option String)
    (approval_id : String) (t : Nat) :
    (approve_plan plan reason approval_id t).1.status = .in_progress
    ∧ (approve_plan plan reason approval_id t).1.steps =
        plan.steps.map (fun s => { s with status := StepStatus.approved })
    ∧ (approve_plan plan reason approval_id t).2.approved = true
    ∧ (approve_plan plan reason approval_id t).2.target_type = "plan"
    ∧ (approve_plan plan reason approval_id t).2.target_id = plan.id :=
  ⟨rfl, rfl, rfl, rfl, rfl⟩

/-- C5: `abort_plan` returns rollback suggestions for exactly the steps
that are COMPLETED with a truthy (non-None, non-empty) rollback action, in
reverse of the original step order; it skips exactly the steps that were
PENDING or APPROVED and leaves all other steps unchanged; it transitions
the plan to ABORTED with a completion timestamp; and it reports the counts
of completed and skipped steps of the resulting plan (completed steps are
those that were already completed; skipped steps are the previously
skipped plus the newly skipped pending/approved ones). -/
theorem abort_plan_rollback_and_skip (plan : Plan) (reason : Option String) (t : Nat) :
    (abort_plan plan reason t).2.rollback_suggestions =
      ((plan.steps.filter
          (fun s => s.status == .completed && truthyOpt s.rollback_action)).map
        (fun s => ({ step_id := s.id, step_order := s.order,
                     step_description := s.description,
                     rollback_action := s.rollback_action } : RollbackSuggestion))).reverse
    ∧ (abort_plan plan reason t).1.steps = plan.steps.map (fun s =>
        if s.status == .pending || s.status == .approved then
          { s with status := StepStatus.skipped }
        else s)
    ∧ (abort_plan plan reason t).1.status = .aborted
    ∧ (abort_plan plan reason t).1.completed_at = some t
    ∧ (abort_plan plan reason t).2.completed_steps =
        plan.steps.countP (fun s => s.status == .completed)
    ∧ (abort_plan plan reason t).2.skipped_steps =
        plan.steps.countP (fun s =>
          s.status == .skipped || s.status == .pending || s.status == .approved) := by
  refine ⟨rfl, rfl, rfl, rfl, ?_, ?_⟩
  · show ((plan.steps.map _).countP _ : Nat) = _
    rw [List.countP_map]
    refine List.countP_congr ?_
    intro s _
    cases h : s.status <;> simp [h]
  · show ((plan.steps.map _).countP _ : Nat) = _
    rw [List.countP_map]
    refine List.countP_congr ?_
    intro s _
    cases h : s.status <;> simp [h]

/-- Helper: when some step of the list has the sought id,
`update_first_step` reports it found and the resulting list contains a step
with that id carrying the new status, result and error. -/
theorem update_first_step_found (step_id : String) (status : StepStatus)
    (result error : Option String) (t : Nat) (steps : List PlanStep)
    (h : steps.any (fun s => s.id == step_id) = true) :
    (update_first_step step_id status result error t steps).2 = true
    ∧ (update_first_step step_id status result error t steps).1.any
        (fun s => s.id == step_id && s.status == status
          && s.result == result && s.error == error) = true := by
  induction steps with
  | nil => simp at h
  | cons s rest ih =>
    by_cases hs : s.id = step_id
    · constructor
      · simp [update_first_step, hs]
      · simp [update_first_step, hs]
    · have h' : rest.any (fun s => s.id == step_id) = true := by
        simp only [List.any_cons, Bool.or_eq_true, beq_iff_eq] at h
        rcases h with h | h
        · exact absurd h hs
        · simpa using h
      constructor
      · simp [update_first_step, hs, (ih h').1]
      · simp [update_first_step, hs, (ih h').2, Bool.or_eq_true]

/-- C6: for every stored plan containing a step with the given id — in any
plan state — `fail_step` sets that step's status to FAILED with the given
error text and unconditionally transitions the whole plan's status to
FAILED. -/
theorem fail_step_unconditionally_fails_plan
    (plan : Plan) (step_id error : String) (t : Nat)
    (h : plan.steps.any (fun s => s.id == step_id) = true) :
    (fail_step plan step_id error t).status = .failed
    ∧ (fail_step plan step_id error t).steps.any
        (fun s => s.id == step_id && s.status == .failed
          && s.result == none && s.error == some error) = true := by
  have hf := update_first_step_found step_id .failed none (some error) t plan.steps h
  unfold fail_step update_step_status
  simp only [hf.1, if_true]
  exact ⟨trivial, hf.2⟩

/-- C6 witness: failing the second of three pending steps fails the whole
plan. -/
theorem fail_step_unconditionally_fails_plan_witness :
    ((create_plan "p1" "plan" "desc" "a1"
        [⟨some "one", some "op1", some "done", none⟩,
         ⟨some "two", some "op2", some "done", none⟩,
         ⟨some "three", some "op3", some "done", none⟩]
        ["s1", "s2", "s3"] 0).steps.any (fun s => s.id == "s2") = true)
    ∧ (fail_step (create_plan "p1" "plan" "desc" "a1"
        [⟨some "one", some "op1", some "done", none⟩,
         ⟨some "two", some "op2", some "done", none⟩,
         ⟨some "three", some "op3", some "done", none⟩]
        ["s1", "s2", "s3"] 0) "s2" "disk full" 5).status = .failed :=
  ⟨by decide,
   (fail_step_unconditionally_fails_plan _ "s2" "disk full" 5 (by decide)).1⟩

/-! ## Claim C4: reachable plan states and the completion timestamp -/

/-- The plan states reachable from a freshly created plan (status DRAFT, no
completion timestamp) via the Plan Controller operations.  Generated
uuids, timestamps, reasons and step ids are arbitrary in each step; the
`Approval` records returned alongside do not influence the plan. -/
inductive Reach : Plan → Prop where
  | fresh (p : Plan) (h1 : p.status = .draft) (h2 : p.completed_at = none) : Reach p
  | submit (p p' : Plan) (t : Nat) (hp : Reach p)
      (h : submit_for_approval p t = .ok p') : Reach p'
  | approve (p : Plan) (reason : Option String) (aid : String) (t : Nat)
      (hp : Reach p) : Reach (approve_plan p reason aid t).1
  | deny (p : Plan) (reason : Option String) (aid : String) (t : Nat)
      (hp : Reach p) : Reach (deny_plan p reason aid t).1
  | approveS (p : Plan) (sid : String) (reason : Option String) (aid : String)
      (t : Nat) (hp : Reach p) : Reach (approve_step p sid reason aid t).1
  | denyS (p : Plan) (sid : String) (reason : Option String) (aid : String)
      (t : Nat) (hp : Reach p) : Reach (deny_step p sid reason aid t).1
  | startS (p : Plan) (sid : String) (t : Nat) (hp : Reach p) :
      Reach (start_step_execution p sid t)
  | completeS (p : Plan) (sid result : String) (t : Nat) (hp : Reach p) :
      Reach (complete_step p sid result t)
  | failS (p : Plan) (sid err : String) (t : Nat) (hp : Reach p) :
      Reach (fail_step p sid err t)
  | abortS (p : Plan) (reason : Option String) (t : Nat) (hp : Reach p) :
      Reach (abort_plan p reason t).1

/-- Helper: step-level approval/denial and `update_step_status` leave the
plan's status and completion timestamp untouched. -/
theorem set_step_pair_preserves (p : Plan) (steps : List PlanStep) (found : Bool)
    (t : Nat) :
    ((if found = true then { p with steps := steps, updated_at := t } else p).status
        = p.status)
    ∧ ((if found = true then { p with steps := steps, updated_at := t } else p).completed_at
        = p.completed_at) := by
  by_cases hf : found = true <;> simp [hf]

theorem update_step_status_preserves (p : Plan) (sid : String) (st : StepStatus)
    (res err : Option String) (t : Nat) :
    (update_step_status p sid st res err t).1.status = p.status
    ∧ (update_step_status p sid st res err t).1.completed_at = p.completed_at := by
  unfold update_step_status
  by_cases hf : (update_first_step sid st res err t p.steps).2 = true <;> simp [hf]

theorem approve_step_preserves (p : Plan) (sid : String) (r : Option String)
    (aid : String) (t : Nat) :
    (approve_step p sid r aid t).1.status = p.status
    ∧ (approve_step p sid r aid t).1.completed_at = p.completed_at := by
  unfold approve_step
  by_cases hf : (set_step_status sid .approved p.steps).2 = true <;> simp [hf]

theorem deny_step_preserves (p : Plan) (sid : String) (r : Option String)
    (aid : String) (t : Nat) :
    (deny_step p sid r aid t).1.status = p.status
    ∧ (deny_step p sid r aid t).1.completed_at = p.completed_at := by
  unfold deny_step
  by_cases hf : (set_step_status sid .denied p.steps).2 = true <;> simp [hf]

/-- C4 counterexample: from the freshly created single-step plan,
`fail_step` reaches the terminal status FAILED with `completed_at` still
null, so "completed_at non-null iff terminal status" fails; and two
consecutive `deny_plan` calls re-stamp `completed_at` (1 then 2), so it is
not assigned exactly once. -/
theorem fail_step_terminal_without_timestamp :
    Reach (fail_step (create_plan "p1" "plan" "desc" "a1"
        [⟨some "one", some "op1", some "done", none⟩] ["s1"] 0) "s1" "boom" 1)
    ∧ (fail_step (create_plan "p1" "plan" "desc" "a1"
        [⟨some "one", some "op1", some "done", none⟩] ["s1"] 0)
        "s1" "boom" 1).status = PlanStatus.failed
    ∧ (fail_step (create_plan "p1" "plan" "desc" "a1"
        [⟨some "one", some "op1", some "done", none⟩] ["s1"] 0)
        "s1" "boom" 1).completed_at = none
    ∧ (deny_plan (deny_plan (create_plan "p1" "plan" "desc" "a1"
        [⟨some "one", some "op1", some "done", none⟩] ["s1"] 0)
        none "ap1" 1).1 none "ap2" 2).1.completed_at = some 2 :=
  ⟨Reach.failS _ "s1" "boom" 1 (Reach.fresh _ rfl rfl),
   by decide, by decide, by decide⟩

/-- C4 amended: in every plan state reachable from a freshly created plan
via the Plan Controller operations, `completed_at` is non-null whenever the
plan status is COMPLETED or ABORTED (it is stamped at each transition into
those statuses by `complete_step`, `deny_plan` and `abort_plan`);
`fail_step` reaches the terminal status FAILED without assigning
`completed_at`, and repeated `deny_plan`/`abort_plan` calls re-stamp it, so
neither the "iff all terminal statuses" nor the "assigned exactly once"
part of the original claim holds. -/
theorem reachable_completed_or_aborted_has_timestamp (p : Plan) (hp : Reach p) :
    (p.status = .completed ∨ p.status = .aborted) → p.completed_at ≠ none := by
  induction hp with
  | fresh q h1 h2 =>
    intro h
    rw [h1] at h
    rcases h with h | h <;> exact absurd h (by decide)
  | submit q q' t hq h ih =>
    intro hs
    unfold submit_for_approval at h
    by_cases hd : q.status ≠ PlanStatus.draft
    · rw [if_pos hd] at h
      exact Except.noConfusion h
    · rw [if_neg hd] at h
      injection h with h
      subst h
      simp at hs
  | approve q reason aid t hq ih =>
    intro hs
    simp [approve_plan] at hs
  | deny q reason aid t hq ih =>
    intro _
    simp [deny_plan]
  | approveS q sid reason aid t hq ih =>
    intro hs
    rw [(approve_step_preserves q sid reason aid t).2]
    rw [(approve_step_preserves q sid reason aid t).1] at hs
    exact ih hs
  | denyS q sid reason aid t hq ih =>
    intro hs
    rw [(deny_step_preserves q sid reason aid t).2]
    rw [(deny_step_preserves q sid reason aid t).1] at hs
    exact ih hs
  | startS q sid t hq ih =>
    intro hs
    unfold start_step_execution at hs ⊢
    rw [(update_step_status_preserves q sid .executing none none t).2]
    rw [(update_step_status_preserves q sid .executing none none t).1] at hs
    exact ih hs
  | completeS q sid result t hq ih =>
    intro hs
    unfold complete_step at hs ⊢
    by_cases hr : (update_step_status q sid StepStatus.completed (some result) none t).2 = true
    · simp only [if_pos hr] at hs ⊢
      by_cases hall : ((update_step_status q sid StepStatus.completed (some result) none
            t).1.steps.all
          (fun s => s.status == StepStatus.completed || s.status == StepStatus.skipped)) = true
      · simp only [if_pos hall] at hs ⊢
        simp
      · simp only [if_neg hall] at hs ⊢
        rw [(update_step_status_preserves q sid .completed (some result) none t).2]
        rw [(update_step_status_preserves q sid .completed (some result) none t).1] at hs
        exact ih hs
    · simp only [if_neg hr] at hs ⊢
      rw [(update_step_status_preserves q sid .completed (some result) none t).2]
      rw [(update_step_status_preserves q sid .completed (some result) none t).1] at hs
      exact ih hs
  | failS q sid err t hq ih =>
    intro hs
    unfold fail_step at hs ⊢
    by_cases hr : (update_step_status q sid StepStatus.failed none (some err) t).2 = true
    · simp only [if_pos hr] at hs
      simp at hs
    · simp only [if_neg hr] at hs ⊢
      rw [(update_step_status_preserves q sid .failed none (some err) t).2]
      rw [(update_step_status_preserves q sid .failed none (some err) t).1] at hs
      exact ih hs
  | abortS q reason t hq ih =>
    intro _
    simp [abort_plan]

/-- C4 witness: the invariant applied to the concrete reachable state
obtained by denying a freshly created plan. -/
theorem reachable_completed_or_aborted_has_timestamp_witness :
    (deny_plan (create_plan "p1" "plan" "desc" "a1"
        [⟨some "one", some "op1", some "done", none⟩] ["s1"] 0)
      none "ap1" 1).1.status = PlanStatus.aborted
    ∧ (deny_plan (create_plan "p1" "plan" "desc" "a1"
        [⟨some "one", some "op1", some "done", none⟩] ["s1"] 0)
      none "ap1" 1).1.completed_at ≠ none :=
  ⟨rfl, reachable_completed_or_aborted_has_timestamp _
      (Reach.deny _ none "ap1" 1 (Reach.fresh _ rfl rfl)) (Or.inr rfl)⟩

/-! ## `state/audit.py` -/

/-- Embedding of the `AuditEntry` dataclass (the free-form `details` map is
opaque structured data never inspected by the query logic and is
omitted). -/
structure AuditEntry where
  id : String
  action : String
  operation : String
  risk_level : RiskLevel
  assessment_id : Option String
  plan_id : Option String
  step_id : Option String
  success : Bool
  error : Option String
  timestamp : Nat
  deriving DecidableEq

/-- The optional query parameters of `AuditLogger.get_entries`
(`until` renamed `untilT`). -/
structure EntryFilters where
  limit : Option Nat
  offset : Nat
  risk_level : Option RiskLevel
  action : Option String
  since : Option Nat
  untilT : Option Nat
  assessment_id : Option String
  plan_id : Option String
  success_only : Bool
  failures_only : Bool

/-- Stable insertion for descending order by timestamp: an element goes
before the first strictly older entry, after equal timestamps. -/
def insertByTsDesc (e : AuditEntry) : List AuditEntry → List AuditEntry
  | [] => [e]
  | a :: rest =>
    if e.timestamp ≥ a.timestamp then e :: a :: rest
    else a :: insertByTsDesc e rest

/-- Source `entries.sort(key=lambda e: e.timestamp, reverse=True)`:
stable sort, most recent first, original order kept among equal
timestamps (Python's sort is stable). -/
def sortByTsDesc : List AuditEntry → List AuditEntry
  | [] => []
  | a :: rest => insertByTsDesc a (sortByTsDesc rest)

/-- Source `AuditLogger.get_entries`: the successive conditional filter
statements, the descending sort, and offset/limit pagination, in source
order. -/
def get_entries (log : List AuditEntry) (f : EntryFilters) : List AuditEntry :=
  let entries := log
  let entries := match f.risk_level with
    | some rl => entries.filter (fun e => e.risk_level == rl)
    | none => entries
  let entries := match f.action with
    | some a => entries.filter (fun e => e.action == a)
    | none => entries
  let entries := match f.since with
    | some t0 => entries.filter (fun e => t0 ≤ e.timestamp)
    | none => entries
  let entries := match f.untilT with
    | some t1 => entries.filter (fun e => e.timestamp ≤ t1)
    | none => entries
  let entries := match f.assessment_id with
    | some aid => entries.filter (fun e => e.assessment_id == some aid)
    | none => entries
  let entries := match f.plan_id with
    | some pid => entries.filter (fun e => e.plan_id == some pid)
    | none => entries
  let entries := if f.success_only then entries.filter (fun e => e.success) else entries
  let entries := if f.failures_only then entries.filter (fun e => !e.success) else entries
  let entries := sortByTsDesc entries
  let entries := if f.offset > 0 then entries.drop f.offset else entries
  match f.limit with
  | some l => entries.take l
  | none => entries

/-! ## Claim C9 -/

/-- The spec's description of the query criteria as one predicate: an
entry passes when it satisfies every given filter. -/
def matchesFilters (f : EntryFilters) (e : AuditEntry) : Bool :=
  (match f.risk_level with | some rl => e.risk_level == rl | none => true)
  && (match f.action with | some a => e.action == a | none => true)
  && (match f.since with | some t0 => decide (t0 ≤ e.timestamp) | none => true)
  && (match f.untilT with | some t1 => decide (e.timestamp ≤ t1) | none => true)
  && (match f.assessment_id with | some aid => e.assessment_id == some aid | none => true)
  && (match f.plan_id with | some pid => e.plan_id == some pid | none => true)
  && (!f.success_only || e.success)
  && (!f.failures_only || !e.success)

/-- The spec's description of `get_entries` for C9: filter by the given
criteria, sort by timestamp descending, drop the first `offset` entries,
then take the first `limit` entries. -/
def get_entries_spec (log : List AuditEntry) (f : EntryFilters) : List AuditEntry :=
  let selected := sortByTsDesc (log.filter (matchesFilters f))
  match f.limit with
  | some l => (selected.drop f.offset).take l
  | none => selected.drop f.offset

/-- Helper: the pagination guard `if offset > 0 then drop else id` is just
`drop`. -/
theorem drop_if_pos (n : Nat) (l : List AuditEntry) :
    (if n > 0 then l.drop n else l) = l.drop n := by
  cases n with
  | zero => simp
  | succ m => simp

/-- C9: for every log and every combination of filters, offset and limit,
`get_entries` equals: filter by all criteria, sort by timestamp descending
(stably), drop `offset`, take `limit` — pagination happens after filtering
and sorting and never reorders results. -/
theorem get_entries_eq_filter_sort_paginate (log : List AuditEntry) (f : EntryFilters) :
    get_entries log f = get_entries_spec log f := by
  rcases f with ⟨limit, offset, rl, act, since_, untl, aid, pid, so, fo⟩
  unfold get_entries get_entries_spec matchesFilters
  cases rl <;> cases act <;> cases since_ <;> cases untl <;> cases aid <;> cases pid <;>
    cases so <;> cases fo <;> cases limit <;>
      simp [List.filter_filter, drop_if_pos, Bool.and_assoc, Bool.and_comm,
        Bool.and_left_comm]

end Governor
